import Mathlib

/-!
Verification development for the zibit trading-assistant backend.

The definitions below are shallow embeddings of the TypeScript sources:
* `src/server/services/technicalAnalysisService.ts` (indicator math),
* `src/server/services/marketDataService.ts` (cache / rate-limit / mock
  fallback state machine, and the `ChatService` in the same module),
* `src/server/services/orderlyMarketService.ts` (market snapshot aggregator),
* `src/server/routes/market.ts` and `src/server/routes/positions.ts`
  (HTTP handlers), and
* the `WebSocketManager` (subscription / polling lifecycle).

JavaScript numbers are modelled by `JsNum` (an exact rational together with
the special values `NaN`, `Infinity`, `-Infinity`) wherever the special
values are reachable; elsewhere plain rationals `ℚ` are used.  Network and
randomness are modelled as explicit oracle arguments; elapsed time is an
explicit `ℕ` millisecond clock passed where the source calls `Date.now()`.
-/

/-- Model of a JavaScript number: an exact rational, or one of the IEEE
special values `NaN`, `+Infinity`, `-Infinity` (negative zero is identified
with zero, and rounding is ignored; both are irrelevant to the properties
proved here). -/
inductive JsNum where
  | nan : JsNum
  | inf : JsNum
  | ninf : JsNum
  | num : ℚ → JsNum
deriving DecidableEq

namespace JsNum

/-- JavaScript addition on `JsNum`. -/
def add : JsNum → JsNum → JsNum
  | nan, _ => nan
  | _, nan => nan
  | inf, ninf => nan
  | ninf, inf => nan
  | inf, _ => inf
  | _, inf => inf
  | ninf, _ => ninf
  | _, ninf => ninf
  | num a, num b => num (a + b)

/-- JavaScript negation on `JsNum`. -/
def neg : JsNum → JsNum
  | nan => nan
  | inf => ninf
  | ninf => inf
  | num a => num (-a)

/-- JavaScript subtraction on `JsNum`. -/
def sub (x y : JsNum) : JsNum := add x (neg y)

/-- JavaScript division on `JsNum`: division by zero yields a signed
infinity, `0/0` yields `NaN`. -/
def div : JsNum → JsNum → JsNum
  | nan, _ => nan
  | _, nan => nan
  | inf, inf => nan
  | inf, ninf => nan
  | ninf, inf => nan
  | ninf, ninf => nan
  | inf, num b => if b < 0 then ninf else inf
  | ninf, num b => if b < 0 then inf else ninf
  | num _, inf => num 0
  | num _, ninf => num 0
  | num a, num b =>
      if b = 0 then (if a = 0 then nan else if 0 < a then inf else ninf)
      else num (a / b)

/-- JavaScript `Math.min`: `NaN` if either argument is `NaN`. -/
def jsMin : JsNum → JsNum → JsNum
  | nan, _ => nan
  | _, nan => nan
  | ninf, _ => ninf
  | _, ninf => ninf
  | inf, x => x
  | x, inf => x
  | num a, num b => num (min a b)

/-- JavaScript `Math.max`: `NaN` if either argument is `NaN`. -/
def jsMax : JsNum → JsNum → JsNum
  | nan, _ => nan
  | _, nan => nan
  | inf, _ => inf
  | _, inf => inf
  | ninf, x => x
  | x, ninf => x
  | num a, num b => num (max a b)

/-- A `JsNum` is a finite value lying in the closed interval `[lo, hi]`. -/
def between (x : JsNum) (lo hi : ℚ) : Bool :=
  match x with
  | num q => decide (lo ≤ q) && decide (q ≤ hi)
  | _ => false

end JsNum

/-! ## TechnicalAnalysisService (src/server/services/technicalAnalysisService.ts) -/

/-- Consecutive price changes `prices[i] − prices[i−1]` for `i = 1 …`, as
built by the loop at the top of `calculateRSI`. -/
def rsiChanges (prices : List ℚ) : List ℚ :=
  List.zipWith (fun a b => a - b) prices.tail prices

/-- The `gains` list of `calculateRSI`: positive changes, else `0`. -/
def rsiGains (prices : List ℚ) : List ℚ :=
  (rsiChanges prices).map (fun c => if 0 < c then c else 0)

/-- The `losses` list of `calculateRSI`: `Math.abs(change)` for negative
changes, else `0`. -/
def rsiLosses (prices : List ℚ) : List ℚ :=
  (rsiChanges prices).map (fun c => if c < 0 then |c| else 0)

/-- Wilder smoothing loop of `calculateRSI`:
`avg = (avg * (period − 1) + x) / period` folded over the remaining
samples. -/
def wilderSmooth (period : ℕ) (xs : List ℚ) (init : ℚ) : ℚ :=
  xs.foldl (fun avg x => (avg * ((period : ℚ) - 1) + x) / (period : ℚ)) init

/-- Seeded smoothed average of `calculateRSI`: the simple mean of the first
`period` samples, then Wilder smoothing over the rest. -/
def avgSmoothed (period : ℕ) (xs : List ℚ) : ℚ :=
  wilderSmooth period (xs.drop period) ((xs.take period).sum / (period : ℚ))

/-- `TechnicalAnalysisService.calculateRSI`.  The final
`rs = avgGain / avgLoss`, `rsi = 100 − 100/(1+rs)` and the
`Math.max(0, Math.min(100, rsi))` clamp are computed in JavaScript
arithmetic, which is where `NaN`/`Infinity` can arise (e.g. `0/0`). -/
def calculateRSI (prices : List ℚ) (period : ℕ := 14) : JsNum :=
  if prices.length < period + 1 then JsNum.num 50
  else
    let avgGain := avgSmoothed period (rsiGains prices)
    let avgLoss := avgSmoothed period (rsiLosses prices)
    let rs := JsNum.div (JsNum.num avgGain) (JsNum.num avgLoss)
    let rsi := JsNum.sub (JsNum.num 100)
      (JsNum.div (JsNum.num 100) (JsNum.add (JsNum.num 1) rs))
    JsNum.jsMax (JsNum.num 0) (JsNum.jsMin (JsNum.num 100) rsi)

/-- JavaScript `prices[prices.length - 1] || 0`: the last element when the
list is non-empty and truthy (non-zero), otherwise `0`; numerically equal
to `getLast?.getD 0`. -/
def lastOrZero (l : List ℚ) : ℚ :=
  match l.getLast? with
  | some x => if x = 0 then 0 else x
  | none => 0

/-- `TechnicalAnalysisService.calculateEMA`: simple-mean seed over the
first `period` values, then `ema = value·m + ema·(1−m)` with
`m = 2/(period+1)` over the remaining values; returns the last value (or 0)
when fewer than `period` samples exist. -/
def calculateEMA (prices : List ℚ) (period : ℕ) : ℚ :=
  if prices.length < period then lastOrZero prices
  else
    let multiplier : ℚ := 2 / ((period : ℚ) + 1)
    (prices.drop period).foldl
      (fun ema p => p * multiplier + ema * (1 - multiplier))
      ((prices.take period).sum / (period : ℚ))

/-- `TechnicalAnalysisService.calculateSMA`: mean of the last `period`
values (`prices.slice(-period)`); the last value (or 0) when fewer samples
exist. -/
def calculateSMA (prices : List ℚ) (period : ℕ) : ℚ :=
  if prices.length < period then lastOrZero prices
  else ((prices.drop (prices.length - period)).sum) / (period : ℚ)

/-- Result record of `calculateMACD`. -/
structure MACDResult where
  macd : ℚ
  signal : ℚ
  histogram : ℚ
deriving DecidableEq

/-- `TechnicalAnalysisService.calculateMACD`: `macd = EMA12 − EMA26`; the
signal line is `calculateEMA` applied to the single-element list
`[macd]` with period 9; `histogram = macd − signal`. -/
def calculateMACD (prices : List ℚ) : MACDResult :=
  let ema12 := calculateEMA prices 12
  let ema26 := calculateEMA prices 26
  let macd := ema12 - ema26
  let signal := calculateEMA [macd] 9
  { macd := macd, signal := signal, histogram := macd - signal }

/-- True-range series of `calculateATR`: for each bar `i ≥ 1`,
`max(high_i − low_i, |high_i − close_{i−1}|, |low_i − close_{i−1}|)`
(the three series are assumed index-aligned, as in every call site). -/
def trueRanges (highs lows closes : List ℚ) : List ℚ :=
  List.zipWith (fun (hl : ℚ × ℚ) c =>
      max (hl.1 - hl.2) (max |hl.1 - c| |hl.2 - c|))
    (highs.tail.zip lows.tail) closes

/-- `TechnicalAnalysisService.calculateATR`: returns `0` when
`highs.length < period`; otherwise the last true range (or 0) when fewer
than `period` true-range samples exist, else `calculateSMA` of the
true-range series. -/
def calculateATR (highs lows closes : List ℚ) (period : ℕ := 14) : ℚ :=
  if highs.length < period then 0
  else
    let trs := trueRanges highs lows closes
    if trs.length < period then lastOrZero trs
    else calculateSMA trs period

/-- Trend classification values of `trendDirection`. -/
inductive Trend where
  | bullish : Trend
  | bearish : Trend
  | neutral : Trend
deriving DecidableEq

/-- `TechnicalAnalysisService.trendDirection`: neutral for fewer than two
prices; otherwise `shortTermTrend = ±1` by `currentPrice > sma20` and
`longTermTrend = ±1` by `sma20 > sma50`; bullish when both are positive,
bearish when both are negative, neutral otherwise. -/
def trendDirection (prices : List ℚ) (sma20 sma50 : ℚ) : Trend :=
  if prices.length < 2 then Trend.neutral
  else
    let currentPrice := (prices.getLast?).getD 0
    let shortTermTrend : ℤ := if currentPrice > sma20 then 1 else -1
    let longTermTrend : ℤ := if sma20 > sma50 then 1 else -1
    if 0 < shortTermTrend ∧ 0 < longTermTrend then Trend.bullish
    else if shortTermTrend < 0 ∧ longTermTrend < 0 then Trend.bearish
    else Trend.neutral

/-! ## MarketDataService (src/server/services/marketDataService.ts)

The service owns a single string-keyed cache `Map` and a per-symbol
`lastFetch` timestamp `Map`.  The cache keys use disjoint textual prefixes
(`ticker_`, `orderbook_`, `klines_`, `trades_`), so the single map is
modelled as four typed maps indexed by the same key strings.  Network I/O
is modelled by oracle functions from the endpoint path to the eventual
outcome of the retry/timeout wrapper for that endpoint (`none` when every
attempt failed); `Math.random()` draws are an oracle `ℕ → ℚ` indexed in
call order, and `Date.now()` is the explicit `now : ℕ` argument. -/

/-- Parsed ticker record (`TickerData` in the source). -/
structure TickerData where
  symbol : String
  price : ℚ
  price24h : ℚ
  volume24h : ℚ
  high24h : ℚ
  low24h : ℚ
  priceChange24h : ℚ
  priceChangePercent24h : ℚ
  timestamp : ℕ
deriving DecidableEq

/-- Numeric fields of a successfully parsed upstream ticker response
(after the `parseFloat` field-alias chains). -/
structure RawTicker where
  price : ℚ
  price24h : ℚ
  volume24h : ℚ
  high24h : ℚ
  low24h : ℚ
  priceChange24h : ℚ
  priceChangePercent24h : ℚ
deriving DecidableEq

/-- Parsed orderbook record (`OrderbookData` in the source); bids and asks
are `[price, quantity]` pairs. -/
structure OrderbookData where
  symbol : String
  bids : List (ℚ × ℚ)
  asks : List (ℚ × ℚ)
  timestamp : ℕ
deriving DecidableEq

/-- Parsed upstream orderbook response. -/
structure RawOrderbook where
  bids : List (ℚ × ℚ)
  asks : List (ℚ × ℚ)
deriving DecidableEq

/-- Parsed kline record (`KlineData` in the source). -/
structure KlineData where
  timestamp : ℕ
  open_ : ℚ
  high : ℚ
  low : ℚ
  close : ℚ
  volume : ℚ
deriving DecidableEq

/-- Trade side. -/
inductive TradeSide where
  | buy : TradeSide
  | sell : TradeSide
deriving DecidableEq

/-- Parsed trade record (`TradeData` in the source). -/
structure TradeData where
  id : String
  symbol : String
  price : ℚ
  quantity : ℚ
  side : TradeSide
  timestamp : ℕ
deriving DecidableEq

/-- Parsed upstream trade response entry; `id` and `side` may be absent
from the upstream payload. -/
structure RawTrade where
  id : Option String
  price : ℚ
  quantity : ℚ
  side : Option TradeSide
  timestamp : ℕ
deriving DecidableEq

/-- In-memory state of `MarketDataService`: the string-keyed cache (split
by the disjoint key prefixes into typed maps) and the per-symbol
`lastFetch` rate-limit map. -/
structure MDState where
  tickerCache : String → Option TickerData
  orderbookCache : String → Option OrderbookData
  klinesCache : String → Option (List KlineData)
  tradesCache : String → Option (List TradeData)
  lastFetch : String → Option ℕ

/-- The empty maps a fresh `MarketDataService` instance starts with. -/
def MDState.initial : MDState :=
  { tickerCache := fun _ => none
    orderbookCache := fun _ => none
    klinesCache := fun _ => none
    tradesCache := fun _ => none
    lastFetch := fun _ => none }

/-- Cache key `ticker_<symbol>`. -/
def tickerKey (symbol : String) : String := "ticker_" ++ symbol

/-- Cache key `orderbook_<symbol>`. -/
def orderbookKey (symbol : String) : String := "orderbook_" ++ symbol

/-- Cache key `klines_<symbol>_<interval>_<limit>`. -/
def klinesKey (symbol interval : String) (limit : ℕ) : String :=
  "klines_" ++ symbol ++ "_" ++ interval ++ "_" ++ toString limit

/-- Cache key `trades_<symbol>_<limit>`. -/
def tradesKey (symbol : String) (limit : ℕ) : String :=
  "trades_" ++ symbol ++ "_" ++ toString limit

/-- Per-symbol base price table (`getBasePrice`, identical in
`MarketDataService`, `TechnicalAnalysisService`, `OrderlyMarketService`
and the market route). -/
def getBasePrice (symbol : String) : ℚ :=
  if symbol = "PERP_BTC_USDC" then 65000
  else if symbol = "PERP_ETH_USDC" then 3200
  else if symbol = "PERP_SOL_USDC" then 180
  else if symbol = "PERP_AVAX_USDC" then 35
  else if symbol = "PERP_MATIC_USDC" then 0.8
  else if symbol = "PERP_HYPE_USDC" then 0.002
  else 100

/-- `MarketDataService.checkRateLimit`: passes (and records `now` in
`lastFetch`) only when at least 1000 ms elapsed since the symbol's last
recorded fetch; an absent entry counts as `0`. -/
def checkRateLimit (symbol : String) (now : ℕ) (s : MDState) : Bool × MDState :=
  let lastF := (s.lastFetch symbol).getD 0
  if now - lastF < 1000 then (false, s)
  else (true, { s with lastFetch := fun k => if k = symbol then some now else s.lastFetch k })

/-- `MarketDataService.getMockTicker`: deterministic base price, random
24h fields (the `Math.random()` draws are `rand 0 … rand 3`). -/
def getMockTicker (symbol : String) (now : ℕ) (rand : ℕ → ℚ) : TickerData :=
  let basePrice := getBasePrice symbol
  { symbol := symbol
    price := basePrice
    price24h := basePrice * (1 + (rand 0 - 0.5) * 0.02)
    volume24h := rand 1 * 1000000
    high24h := basePrice * 1.015
    low24h := basePrice * 0.985
    priceChange24h := (rand 2 - 0.5) * basePrice * 0.03
    priceChangePercent24h := (rand 3 - 0.5) * 3
    timestamp := now }

/-- `MarketDataService.getMockOrderbook`: ten levels either side of the
base price with random quantities. -/
def getMockOrderbook (symbol : String) (now : ℕ) (rand : ℕ → ℚ) : OrderbookData :=
  let basePrice := getBasePrice symbol
  { symbol := symbol
    bids := (List.range 10).map (fun (i : ℕ) => (basePrice - (i : ℚ) * 0.5, rand (2 * i) * 100))
    asks := (List.range 10).map (fun (i : ℕ) => (basePrice + (i : ℚ) * 0.5, rand (2 * i + 1) * 100))
    timestamp := now }

/-- `MarketDataService.getMockKlines`: `limit` synthetic one-minute bars
ending at `now`, randomized around the base price (five `Math.random()`
draws per bar, indexed in call order). -/
def getMockKlines (symbol : String) (limit : ℕ) (now : ℕ) (rand : ℕ → ℚ) : List KlineData :=
  (List.range limit).map (fun j =>
    let i := limit - j
    let basePrice := getBasePrice symbol
    let o := basePrice + (rand (5 * j) - 0.5) * 10
    let c := o + (rand (5 * j + 1) - 0.5) * 2
    { timestamp := now - i * 60000
      open_ := o
      high := max o c + rand (5 * j + 2) * 1
      low := min o c - rand (5 * j + 3) * 1
      close := c
      volume := rand (5 * j + 4) * 1000 })

/-- `MarketDataService.getMockTrades`: `limit` synthetic trades around the
base price. -/
def getMockTrades (symbol : String) (limit : ℕ) (now : ℕ) (rand : ℕ → ℚ) : List TradeData :=
  (List.range limit).map (fun i =>
    { id := "trade_" ++ toString i
      symbol := symbol
      price := getBasePrice symbol + (rand (3 * i) - 0.5) * 2
      quantity := rand (3 * i + 1) * 10
      side := if rand (3 * i + 2) > 0.5 then TradeSide.buy else TradeSide.sell
      timestamp := now - i * 1000 })

/-- The ordered public endpoint variants probed by `fetchTicker`. -/
def tickerEndpoints (symbol : String) : List String :=
  [ "/v1/public/market/ticker?symbol=" ++ symbol
  , "/v1/public/ticker?symbol=" ++ symbol
  , "/ticker?symbol=" ++ symbol
  , "/v1/ticker?symbol=" ++ symbol ]

/-- The ordered authenticated endpoint variants probed by `fetchTicker`
after every public variant failed. -/
def tickerAuthEndpoints (symbol : String) : List String :=
  [ "/v1/public/market/ticker?symbol=" ++ symbol
  , "/v1/public/ticker?symbol=" ++ symbol ]

/-- First endpoint in the list for which the network oracle yields data
(the `for … try/continue` probing loop of `fetchTicker`). -/
def firstSuccess {α : Type} (net : String → Option α) : List String → Option α
  | [] => none
  | e :: es =>
    match net e with
    | some d => some d
    | none => firstSuccess net es

/-- Network phase of `fetchTicker` (the body after the cache check): rate
limit, endpoint probing (public then authenticated), the
`price = 0 ∧ volume24h = 0` validation, mock fallback, and the cache
write.  The returned `Bool` is true when at least one network request was
issued. -/
def fetchTickerNetwork (symbol : String) (now : ℕ)
    (netPub netAuth : String → Option RawTicker) (rand : ℕ → ℚ)
    (s : MDState) : TickerData × Bool × MDState :=
  let rl := checkRateLimit symbol now s
  if rl.1 then
    let data :=
      match firstSuccess netPub (tickerEndpoints symbol) with
      | some d => some d
      | none => firstSuccess netAuth (tickerAuthEndpoints symbol)
    match data with
    | none => (getMockTicker symbol now rand, true, rl.2)
    | some d =>
      let ticker : TickerData :=
        { symbol := symbol
          price := d.price
          price24h := d.price24h
          volume24h := d.volume24h
          high24h := d.high24h
          low24h := d.low24h
          priceChange24h := d.priceChange24h
          priceChangePercent24h := d.priceChangePercent24h
          timestamp := now }
      if ticker.price = 0 ∧ ticker.volume24h = 0 then
        (getMockTicker symbol now rand, true, rl.2)
      else
        (ticker, true,
          { rl.2 with tickerCache := fun k =>
              if k = tickerKey symbol then some ticker else rl.2.tickerCache k })
  else ((s.tickerCache (tickerKey symbol)).getD (getMockTicker symbol now rand), false, rl.2)

/-- `MarketDataService.fetchTicker`: a cache entry younger than the
2000 ms TTL is returned without any network access; otherwise the network
phase runs.  `fetchTicker` never throws: every failure path returns mock
data. -/
def fetchTicker (symbol : String) (now : ℕ)
    (netPub netAuth : String → Option RawTicker) (rand : ℕ → ℚ)
    (s : MDState) : TickerData × Bool × MDState :=
  match s.tickerCache (tickerKey symbol) with
  | some c =>
    if now - c.timestamp < 2000 then (c, false, s)
    else fetchTickerNetwork symbol now netPub netAuth rand s
  | none => fetchTickerNetwork symbol now netPub netAuth rand s

/-- Network phase of `fetchOrderbook`: rate limit, public then
authenticated fetch of the single orderbook endpoint, mock fallback, cache
write. -/
def fetchOrderbookNetwork (symbol : String) (now : ℕ)
    (netPub netAuth : String → Option RawOrderbook) (rand : ℕ → ℚ)
    (s : MDState) : OrderbookData × Bool × MDState :=
  let rl := checkRateLimit symbol now s
  if rl.1 then
    let ep := "/v1/public/orderbook?symbol=" ++ symbol ++ "&depth=20"
    let data :=
      match netPub ep with
      | some d => some d
      | none => netAuth ep
    match data with
    | none => (getMockOrderbook symbol now rand, true, rl.2)
    | some d =>
      let ob : OrderbookData :=
        { symbol := symbol, bids := d.bids, asks := d.asks, timestamp := now }
      (ob, true,
        { rl.2 with orderbookCache := fun k =>
            if k = orderbookKey symbol then some ob else rl.2.orderbookCache k })
  else ((s.orderbookCache (orderbookKey symbol)).getD (getMockOrderbook symbol now rand), false, rl.2)

/-- `MarketDataService.fetchOrderbook`: same fresh-cache short-circuit as
`fetchTicker`, then the network phase; never throws. -/
def fetchOrderbook (symbol : String) (now : ℕ)
    (netPub netAuth : String → Option RawOrderbook) (rand : ℕ → ℚ)
    (s : MDState) : OrderbookData × Bool × MDState :=
  match s.orderbookCache (orderbookKey symbol) with
  | some c =>
    if now - c.timestamp < 2000 then (c, false, s)
    else fetchOrderbookNetwork symbol now netPub netAuth rand s
  | none => fetchOrderbookNetwork symbol now netPub netAuth rand s

/-- `MarketDataService.fetchKlines`.  Unlike `fetchTicker` and
`fetchOrderbook`, there is no freshness check: the method goes straight to
the rate limiter, and the cache entry (with no TTL applied) is consulted
only on the rate-limited path. -/
def fetchKlines (symbol interval : String) (limit : ℕ) (now : ℕ)
    (netPub netAuth : String → Option (List KlineData)) (rand : ℕ → ℚ)
    (s : MDState) : List KlineData × Bool × MDState :=
  let cacheKey := klinesKey symbol interval limit
  let rl := checkRateLimit symbol now s
  if rl.1 then
    let ep := "/v1/public/futures/klines?symbol=" ++ symbol ++ "&interval=" ++ interval
      ++ "&limit=" ++ toString limit
    let data :=
      match netPub ep with
      | some d => some d
      | none => netAuth ep
    match data with
    | none => (getMockKlines symbol limit now rand, true, rl.2)
    | some klines =>
      (klines, true,
        { rl.2 with klinesCache := fun k =>
            if k = cacheKey then some klines else rl.2.klinesCache k })
  else ((s.klinesCache cacheKey).getD (getMockKlines symbol limit now rand), false, rl.2)

/-- Completes a raw trade entry the way the `fetchTrades` parser does:
absent ids become `trade_<now>`, absent sides are drawn at random. -/
def parseTrade (symbol : String) (now : ℕ) (rand : ℕ → ℚ) (i : ℕ) (t : RawTrade) : TradeData :=
  { id := t.id.getD ("trade_" ++ toString now)
    symbol := symbol
    price := t.price
    quantity := t.quantity
    side := t.side.getD (if rand i > 0.5 then TradeSide.buy else TradeSide.sell)
    timestamp := t.timestamp }

/-- `MarketDataService.fetchTrades`: same shape as `fetchKlines` — no
freshness check, cache consulted only on the rate-limited path. -/
def fetchTrades (symbol : String) (limit : ℕ) (now : ℕ)
    (netPub netAuth : String → Option (List RawTrade)) (rand : ℕ → ℚ)
    (s : MDState) : List TradeData × Bool × MDState :=
  let cacheKey := tradesKey symbol limit
  let rl := checkRateLimit symbol now s
  if rl.1 then
    let ep := "/v1/public/trades?symbol=" ++ symbol ++ "&limit=" ++ toString limit
    let data :=
      match netPub ep with
      | some d => some d
      | none => netAuth ep
    match data with
    | none => (getMockTrades symbol limit now rand, true, rl.2)
    | some raw =>
      let trades := (raw.enum.map (fun p => parseTrade symbol now rand p.1 p.2))
      (trades, true,
        { rl.2 with tradesCache := fun k =>
            if k = cacheKey then some trades else rl.2.tradesCache k })
  else ((s.tradesCache cacheKey).getD (getMockTrades symbol limit now rand), false, rl.2)

/-! ## OrderlyMarketService and the market route -/

/-- Market snapshot returned by `OrderlyMarketService.getMarketData` and by
`GET /api/market/:symbol` (orderbook truncated to the top 10 levels each
side). -/
structure MarketSnapshot where
  symbol : String
  price : ℚ
  volume24h : ℚ
  change24h : ℚ
  high : ℚ
  low : ℚ
  bids : List (ℚ × ℚ)
  asks : List (ℚ × ℚ)
  timestamp : ℕ
  isRealData : Bool
deriving DecidableEq

/-- `OrderlyMarketService.getMockMarketData`: the synthetic snapshot marked
`isRealData := false`.  In the source it sits in the `catch` arm of
`getMarketData`, which is reachable only if `fetchTicker` or
`fetchOrderbook` throws — and both catch every failure internally. -/
def getMockMarketData (symbol : String) (now : ℕ) (rand : ℕ → ℚ) : MarketSnapshot :=
  let basePrice := getBasePrice symbol
  { symbol := symbol
    price := basePrice
    volume24h := rand 0 * 1000000
    change24h := (rand 1 - 0.5) * 10
    high := basePrice * 1.02
    low := basePrice * 0.98
    bids := (List.range 10).map (fun (i : ℕ) => (3200 - (i : ℚ) * 0.5, rand (2 + 2 * i) * 10))
    asks := (List.range 10).map (fun (i : ℕ) => (3200 + (i : ℚ) * 0.5, rand (3 + 2 * i) * 10))
    timestamp := now
    isRealData := false }

/-- `OrderlyMarketService.getMarketData`: awaits `fetchTicker` then
`fetchOrderbook` and assembles the snapshot with `isRealData := true`.
Because both fetchers are total (they substitute mock data themselves
instead of throwing), the `catch` arm returning `getMockMarketData` is
unreachable, so this embedding is the `try` branch alone. -/
def getMarketData (symbol : String) (now : ℕ)
    (netPubT netAuthT : String → Option RawTicker)
    (netPubO netAuthO : String → Option RawOrderbook)
    (randT randO : ℕ → ℚ) (s : MDState) : MarketSnapshot × MDState :=
  let rt := fetchTicker symbol now netPubT netAuthT randT s
  let ro := fetchOrderbook symbol now netPubO netAuthO randO rt.2.2
  ({ symbol := symbol
     price := rt.1.price
     volume24h := rt.1.volume24h
     change24h := rt.1.priceChangePercent24h
     high := rt.1.high24h
     low := rt.1.low24h
     bids := ro.1.bids.take 10
     asks := ro.1.asks.take 10
     timestamp := now
     isRealData := true }, ro.2.2)

/-- `GET /api/market/:symbol` (src/server/routes/market.ts): builds the
response from `fetchTicker` and `fetchOrderbook` with `isRealData := true`
and status 200.  The 206 fallback sits in the `catch` arm, reachable only
if one of the two fetchers throws — and neither can. -/
def marketRouteGet (symbol : String) (now : ℕ)
    (netPubT netAuthT : String → Option RawTicker)
    (netPubO netAuthO : String → Option RawOrderbook)
    (randT randO : ℕ → ℚ) (s : MDState) : ℕ × MarketSnapshot × MDState :=
  let rt := fetchTicker symbol now netPubT netAuthT randT s
  let ro := fetchOrderbook symbol now netPubO netAuthO randO rt.2.2
  (200,
   { symbol := rt.1.symbol
     price := rt.1.price
     volume24h := rt.1.volume24h
     change24h := rt.1.priceChangePercent24h
     high := rt.1.high24h
     low := rt.1.low24h
     bids := ro.1.bids.take 10
     asks := ro.1.asks.take 10
     timestamp := rt.1.timestamp
     isRealData := true }, ro.2.2)

/-! ## ChatService (processMessage) and POST /api/ai/chat -/

/-- Indicator snapshot as returned inside a chat response. -/
structure ChatIndicators where
  rsi : ℚ
  macd : MACDResult
  ema20 : ℚ
  ema50 : ℚ
deriving DecidableEq

/-- Value returned by `ChatService.processMessage`. -/
structure ChatResponse where
  reply : String
  indicators : ChatIndicators
  price : ℚ
deriving DecidableEq

/-- `ChatService.calculateOrderbookImbalance`:
`(Σ bidQty − Σ askQty) / (Σ bidQty + Σ askQty)`, `0` when both sides are
empty of volume. -/
def calculateOrderbookImbalance (bids asks : List (ℚ × ℚ)) : ℚ :=
  let totalBidVolume := (bids.map (fun p => p.2)).sum
  let totalAskVolume := (asks.map (fun p => p.2)).sum
  let totalVolume := totalBidVolume + totalAskVolume
  if totalVolume = 0 then 0
  else (totalBidVolume - totalAskVolume) / totalVolume

/-- Text of the fixed apology reply of `ChatService.processMessage`,
before the symbol. -/
def apologyHead : String :=
  "I apologize, but I\x27m having trouble accessing market data right now. Your question about "

/-- Text of the fixed apology reply of `ChatService.processMessage`,
after the symbol. -/
def apologySuffix : String :=
  " has been noted. Please try again in a moment."

/-- The catch-arm payload of `ChatService.processMessage`: apology reply
naming the symbol, neutral placeholder indicators and zero price. -/
def chatFallbackResponse (symbol : String) : ChatResponse :=
  { reply := apologyHead ++ symbol ++ apologySuffix
    indicators :=
      { rsi := 50
        macd := { macd := 0, signal := 0, histogram := 0 }
        ema20 := 0
        ema50 := 0 }
    price := 0 }

/-- Full indicator snapshot produced by
`TechnicalAnalysisService.getAllIndicators` (real or mock). -/
structure IndicatorSnapshot where
  rsi : ℚ
  macd : MACDResult
  ema20 : ℚ
  ema50 : ℚ
  sma20 : ℚ
  atr : ℚ
  vwap : ℚ
  trend : Trend
deriving DecidableEq

/-- `ChatService.processMessage`.  The three awaited sub-operations — the
market-data fetch, the indicator computation and the completion-capability
call — are passed as their outcomes (`Except Unit _`, `.error` meaning the
awaited promise rejected); the surrounding `try/catch` turns any rejection
into `chatFallbackResponse`.  On success the reply is the completion text,
or the fixed sorry-message when the completion returned no content; the
assembled system prompt itself is consumed only by the completion oracle
and does not influence the returned payload. -/
def processMessage (_message _wallet symbol : String)
    (marketRes : Except Unit MarketSnapshot)
    (indicRes : Except Unit IndicatorSnapshot)
    (completionRes : Except Unit (Option String)) : ChatResponse :=
  let run : Except Unit ChatResponse :=
    match marketRes with
    | Except.error e => Except.error e
    | Except.ok marketData =>
      match indicRes with
      | Except.error e => Except.error e
      | Except.ok indicators =>
        match completionRes with
        | Except.error e => Except.error e
        | Except.ok content =>
          Except.ok
            { reply := content.getD "Sorry, I couldn\x27t generate a response. Please try again."
              indicators :=
                { rsi := indicators.rsi
                  macd := indicators.macd
                  ema20 := indicators.ema20
                  ema50 := indicators.ema50 }
              price := marketData.price }
  match run with
  | Except.ok r => r
  | Except.error _ => chatFallbackResponse symbol

/-- Body of `POST /api/ai/chat` as far as the handler reads it: the three
fields, each possibly absent. -/
structure ChatRequestBody where
  message : Option String
  wallet : Option String
  symbol : Option String

/-- JavaScript falsiness of an optional string field: absent (`undefined`)
or the empty string. -/
def strFalsy (o : Option String) : Bool :=
  match o with
  | none => true
  | some s => s = ""

/-- Response body of `POST /api/ai/chat`: the 400 arm carries only the
error message, the 200 arm carries the chat payload. -/
inductive ChatRouteBody where
  | errorOnly (error : String) : ChatRouteBody
  | payload (r : ChatResponse) : ChatRouteBody
deriving DecidableEq

/-- `POST /api/ai/chat` (src/server/routes/positions.ts, part of the same
file as the positions route): a falsy `message`, `wallet` or `symbol`
short-circuits to status 400 with only the error field and no call to
`chatService.processMessage`; otherwise the handler returns the chat
payload with status 200.  The third component records whether
`processMessage` was invoked.  The 500 `catch` arm is unreachable because
`processMessage` never throws. -/
def postChat (body : ChatRequestBody)
    (marketRes : Except Unit MarketSnapshot)
    (indicRes : Except Unit IndicatorSnapshot)
    (completionRes : Except Unit (Option String)) : ℕ × ChatRouteBody × Bool :=
  if strFalsy body.message || strFalsy body.wallet || strFalsy body.symbol then
    (400, ChatRouteBody.errorOnly "Missing required fields: message, wallet, symbol", false)
  else
    (200, ChatRouteBody.payload
      (processMessage (body.message.getD "") (body.wallet.getD "") (body.symbol.getD "")
        marketRes indicRes completionRes), true)

/-! ## WebSocketManager (src/unnamed/part_000)

State of the realtime broadcaster: the manager's own `activeSymbols` set
and `pollIntervals` map, plus two pieces of runtime state it does not own
as fields — the socket.io room membership (`rooms`, pairs of symbol and
socket id), and the registry of running 2000 ms price-poll intervals
created by `orderlyMarketService.startPolling` (`pricePolls`).  The
cancellation closure returned by `startPolling` is bound to `stopPolling`
in `subscribeToSymbol` and never stored or invoked, so nothing the manager
does can remove an entry from `pricePolls`. -/

structure WSState where
  activeSymbols : List String
  pollIntervals : List String
  pricePolls : List String
  rooms : List (String × ℕ)
deriving DecidableEq

/-- The empty broadcaster state. -/
def WSState.initial : WSState := ⟨[], [], [], []⟩

/-- Number of sockets joined to the room `symbol-<sym>`
(`io.sockets.adapter.rooms.get(...).size`). -/
def roomCount (sym : String) (s : WSState) : ℕ :=
  (s.rooms.filter (fun p => p.1 = sym)).length

/-- `WebSocketManager.subscribeToSymbol`: on the first subscriber of a
symbol, record it active, start the 2000 ms price poll (whose cancellation
handle is discarded) and store the 30000 ms alert interval in
`pollIntervals`. -/
def subscribeToSymbol (sym : String) (s : WSState) : WSState :=
  if sym ∈ s.activeSymbols then s
  else
    { s with
      activeSymbols := sym :: s.activeSymbols
      pricePolls := sym :: s.pricePolls
      pollIntervals := sym :: s.pollIntervals }

/-- `WebSocketManager.unsubscribeFromSymbol`: when the room is empty,
drop the symbol from `activeSymbols` and `clearInterval` the handle stored
in `pollIntervals` (the 30000 ms alert interval); the price-poll interval
is not touched because its handle was never kept. -/
def unsubscribeFromSymbol (sym : String) (s : WSState) : WSState :=
  if roomCount sym s = 0 then
    { s with
      activeSymbols := s.activeSymbols.filter (fun x => x ≠ sym)
      pollIntervals := s.pollIntervals.filter (fun x => x ≠ sym) }
  else s

/-- Client-originated socket events handled by `setupSocketHandlers`. -/
inductive WSEvent where
  | subscribe (sock : ℕ) (sym : String) : WSEvent
  | unsubscribe (sock : ℕ) (sym : String) : WSEvent
  | disconnect (sock : ℕ) : WSEvent

/-- One socket event: `subscribe-symbol` runs `subscribeToSymbol` then
joins the room; `unsubscribe-symbol` leaves the room then runs
`unsubscribeFromSymbol`; `disconnect` removes the socket from every room
(socket.io behaviour) and runs no manager logic — the handler only logs. -/
def wsStep (s : WSState) : WSEvent → WSState
  | WSEvent.subscribe sock sym =>
    let s1 := subscribeToSymbol sym s
    { s1 with rooms :=
        if (sym, sock) ∈ s1.rooms then s1.rooms else (sym, sock) :: s1.rooms }
  | WSEvent.unsubscribe sock sym =>
    unsubscribeFromSymbol sym
      { s with rooms := s.rooms.filter (fun p => ¬(p.1 = sym ∧ p.2 = sock)) }
  | WSEvent.disconnect sock =>
    { s with rooms := s.rooms.filter (fun p => p.2 ≠ sock) }

/-- Run a sequence of socket events from the empty state. -/
def wsRun (events : List WSEvent) : WSState :=
  events.foldl wsStep WSState.initial

/-- The 2000 ms price-update timer for a symbol is (still) firing. -/
def priceTimerActive (sym : String) (s : WSState) : Bool := sym ∈ s.pricePolls

/-- The 30000 ms alert timer for a symbol is (still) firing. -/
def alertTimerActive (sym : String) (s : WSState) : Bool := sym ∈ s.pollIntervals

/-! ## Concrete scenarios used by the counterexample and witness theorems -/

/-- Network oracle on which every ticker endpoint fails. -/
def noNetTicker : String → Option RawTicker := fun _ => none

/-- Network oracle on which every orderbook endpoint fails. -/
def noNetOrderbook : String → Option RawOrderbook := fun _ => none

/-- Degenerate randomness source (every draw is 0). -/
def randZero : ℕ → ℚ := fun _ => 0

/-- A single concrete kline bar. -/
def klineSample : KlineData := ⟨940000, 100, 101, 99, 100, 5⟩

/-- Network oracle on which every klines endpoint succeeds with
`[klineSample]`. -/
def klNet : String → Option (List KlineData) := fun _ => some [klineSample]

/-- State after a successful `fetchKlines` call at t = 1000 ms, which
stored `[klineSample]` in the cache. -/
def sAfterFirstKlines : MDState :=
  (fetchKlines "S" "1m" 100 1000 klNet klNet randZero MDState.initial).2.2

/-- A concrete cached ticker entry with timestamp 4000 ms. -/
def tickerW : TickerData := ⟨"S", 100, 100, 1, 101, 99, 0, 0, 4000⟩

/-- A concrete cached orderbook entry with timestamp 4000 ms. -/
def orderbookW : OrderbookData := ⟨"S", [(100, 1)], [(101, 1)], 4000⟩

/-- A concrete service state holding fresh cache entries for symbol `S`
and a `lastFetch` stamp of 4500 ms. -/
def sW : MDState :=
  { tickerCache := fun k => if k = tickerKey "S" then some tickerW else none
    orderbookCache := fun k => if k = orderbookKey "S" then some orderbookW else none
    klinesCache := fun k => if k = klinesKey "S" "1m" 100 then some [klineSample] else none
    tradesCache := fun _ => none
    lastFetch := fun k => if k = "S" then some 4500 else none }

/-- Ticker network oracle that always succeeds with price 500. -/
def tickNet500 : String → Option RawTicker := fun _ => some ⟨500, 500, 1, 501, 499, 0, 0⟩

/-- Ticker network oracle that always succeeds with price 999. -/
def tickNet999 : String → Option RawTicker := fun _ => some ⟨999, 999, 1, 1000, 998, 0, 0⟩

/-- State after a successful seed `fetchTicker` at t = 5000 ms (cache entry
with price 500 and timestamp 5000, `lastFetch` = 5000). -/
def sSeedC6 : MDState :=
  (fetchTicker "PERP_BTC_USDC" 5000 tickNet500 tickNet500 randZero MDState.initial).2.2

/-- First of the two claim-C6 calls: t = 6900 ms, fresh cache hit. -/
def call1C6 : TickerData × Bool × MDState :=
  fetchTicker "PERP_BTC_USDC" 6900 tickNet500 tickNet500 randZero sSeedC6

/-- Second of the two claim-C6 calls: t = 7100 ms (200 ms after the first),
cache now stale, rate limiter clear. -/
def call2C6 : TickerData × Bool × MDState :=
  fetchTicker "PERP_BTC_USDC" 7100 tickNet999 tickNet999 randZero call1C6.2.2

/-! ## Shared lemmas -/

/-- Length of the true-range series: one per bar after the first, when the
three input series are aligned. -/
theorem trueRanges_length (highs lows closes : List ℚ)
    (hl : lows.length = highs.length) (hc : closes.length = highs.length) :
    (trueRanges highs lows closes).length = highs.length - 1 := by
  simp only [trueRanges, List.length_zipWith, List.length_zip, List.length_tail, hl, hc]
  omega

/-- The Wilder smoothing fold maps a non-negative seed and non-negative
samples to a non-negative average (for period ≥ 1). -/
theorem wilderFold_nonneg (p : ℚ) (hp : 1 ≤ p) :
    ∀ (xs : List ℚ), (∀ x ∈ xs, 0 ≤ x) → ∀ init : ℚ, 0 ≤ init →
      0 ≤ xs.foldl (fun avg x => (avg * (p - 1) + x) / p) init := by
  intro xs
  induction xs with
  | nil => intro _ init hi; simpa using hi
  | cons y ys ih =>
    intro hxs init hi
    simp only [List.foldl_cons]
    refine ih (fun x hx => hxs x (List.mem_cons_of_mem _ hx)) _ ?_
    have hy := hxs y (List.mem_cons_self y ys)
    have hp0 : (0:ℚ) < p := lt_of_lt_of_le one_pos hp
    have hp1 : (0:ℚ) ≤ p - 1 := by linarith
    exact div_nonneg (add_nonneg (mul_nonneg hi hp1) hy) hp0.le

/-- The Wilder smoothing fold preserves positivity of the seed over
non-negative samples (for period ≥ 2). -/
theorem wilderFold_pos_of_init (p : ℚ) (hp : 2 ≤ p) :
    ∀ (xs : List ℚ), (∀ x ∈ xs, 0 ≤ x) → ∀ init : ℚ, 0 < init →
      0 < xs.foldl (fun avg x => (avg * (p - 1) + x) / p) init := by
  intro xs
  induction xs with
  | nil => intro _ init hi; simpa using hi
  | cons y ys ih =>
    intro hxs init hi
    simp only [List.foldl_cons]
    refine ih (fun x hx => hxs x (List.mem_cons_of_mem _ hx)) _ ?_
    have hy := hxs y (List.mem_cons_self y ys)
    have hp0 : (0:ℚ) < p := by linarith
    have hp1 : (0:ℚ) < p - 1 := by linarith
    exact div_pos (lt_of_lt_of_le (mul_pos hi hp1) (by linarith)) hp0

/-- The Wilder smoothing fold becomes positive as soon as one sample is
positive, whatever the (non-negative) seed. -/
theorem wilderFold_pos_of_mem (p : ℚ) (hp : 2 ≤ p) :
    ∀ (xs : List ℚ), (∀ x ∈ xs, 0 ≤ x) → (∃ x ∈ xs, 0 < x) → ∀ init : ℚ, 0 ≤ init →
      0 < xs.foldl (fun avg x => (avg * (p - 1) + x) / p) init := by
  intro xs
  induction xs with
  | nil => intro _ hmem; exact absurd hmem (by simp)
  | cons y ys ih =>
    intro hxs hmem init hi
    simp only [List.foldl_cons]
    have hy := hxs y (List.mem_cons_self y ys)
    have hp0 : (0:ℚ) < p := by linarith
    have hp1 : (0:ℚ) ≤ p - 1 := by linarith
    rcases hmem with ⟨x, hx, hxpos⟩
    rcases List.mem_cons.mp hx with rfl | hxys
    · refine wilderFold_pos_of_init p hp ys
        (fun z hz => hxs z (List.mem_cons_of_mem _ hz)) _ ?_
      exact div_pos (lt_of_lt_of_le hxpos (by nlinarith [mul_nonneg hi hp1])) hp0
    · refine ih (fun z hz => hxs z (List.mem_cons_of_mem _ hz)) ⟨x, hxys, hxpos⟩ _ ?_
      exact div_nonneg (add_nonneg (mul_nonneg hi hp1) hy) hp0.le

/-- The seeded smoothed average of non-negative samples is non-negative. -/
theorem avgSmoothed_nonneg (period : ℕ) (hp : 1 ≤ period) (xs : List ℚ)
    (hxs : ∀ x ∈ xs, 0 ≤ x) : 0 ≤ avgSmoothed period xs := by
  unfold avgSmoothed wilderSmooth
  refine wilderFold_nonneg _ (by exact_mod_cast hp) _
    (fun x hx => hxs x (List.mem_of_mem_drop hx)) _ ?_
  exact div_nonneg (List.sum_nonneg (fun x hx => hxs x (List.mem_of_mem_take hx)))
    (by positivity)

/-- The seeded smoothed average of non-negative samples is positive as soon
as one sample is positive (for period ≥ 2). -/
theorem avgSmoothed_pos (period : ℕ) (hp : 2 ≤ period) (xs : List ℚ)
    (hxs : ∀ x ∈ xs, 0 ≤ x) (hmem : ∃ x ∈ xs, 0 < x) : 0 < avgSmoothed period xs := by
  unfold avgSmoothed wilderSmooth
  rcases hmem with ⟨x, hx, hxpos⟩
  have hpq : (2:ℚ) ≤ (period : ℚ) := by exact_mod_cast hp
  have hp0 : (0:ℚ) < (period : ℚ) := by linarith
  rcases List.mem_append.mp ((List.take_append_drop period xs).symm ▸ hx) with htk | hdr
  · refine wilderFold_pos_of_init _ hpq _
      (fun z hz => hxs z (List.mem_of_mem_drop hz)) _ ?_
    refine div_pos (lt_of_lt_of_le hxpos ?_) hp0
    exact List.single_le_sum (fun z hz => hxs z (List.mem_of_mem_take hz)) _ htk
  · refine wilderFold_pos_of_mem _ hpq _
      (fun z hz => hxs z (List.mem_of_mem_drop hz)) ⟨x, hdr, hxpos⟩ _ ?_
    exact div_nonneg (List.sum_nonneg (fun z hz => hxs z (List.mem_of_mem_take hz))) hp0.le

/-- The `Math.max(0, Math.min(100, ·))` clamp keeps any finite value inside
`[0, 100]`. -/
theorem clamp_between (v : ℚ) :
    (JsNum.jsMax (JsNum.num 0) (JsNum.jsMin (JsNum.num 100) (JsNum.num v))).between 0 100 = true := by
  simp only [JsNum.jsMax, JsNum.jsMin, JsNum.between, Bool.and_eq_true, decide_eq_true_iff]
  exact ⟨le_max_left 0 _, max_le (by norm_num) (min_le_left _ _)⟩

/-- Behaviour of the ticker network phase when the rate limiter blocks:
cached-or-mock result, no network attempt, unchanged state. -/
theorem fetchTickerNetwork_blocked (symbol : String) (now : ℕ)
    (netP netA : String → Option RawTicker) (rand : ℕ → ℚ) (s : MDState)
    (h : now - (s.lastFetch symbol).getD 0 < 1000) :
    fetchTickerNetwork symbol now netP netA rand s =
      ((s.tickerCache (tickerKey symbol)).getD (getMockTicker symbol now rand), false, s) := by
  simp [fetchTickerNetwork, checkRateLimit, h]

/-- Behaviour of the ticker network phase when the rate limiter passes: a
network attempt is made and `lastFetch` records the call time. -/
theorem fetchTickerNetwork_attempted (symbol : String) (now : ℕ)
    (netP netA : String → Option RawTicker) (rand : ℕ → ℚ) (s : MDState)
    (h : ¬ now - (s.lastFetch symbol).getD 0 < 1000) :
    (fetchTickerNetwork symbol now netP netA rand s).2.1 = true ∧
    (fetchTickerNetwork symbol now netP netA rand s).2.2.lastFetch symbol = some now := by
  simp only [fetchTickerNetwork, checkRateLimit, h, if_false, if_true]
  split
  · simp
  · split <;> simp

/-- A `fetchTicker` call that performed a network attempt recorded its call
time in `lastFetch`. -/
theorem fetchTicker_attempted_lastFetch (symbol : String) (now : ℕ)
    (netP netA : String → Option RawTicker) (rand : ℕ → ℚ) (s : MDState)
    (h : (fetchTicker symbol now netP netA rand s).2.1 = true) :
    (fetchTicker symbol now netP netA rand s).2.2.lastFetch symbol = some now := by
  by_cases hrl : now - (s.lastFetch symbol).getD 0 < 1000
  · exfalso
    have hb := fetchTickerNetwork_blocked symbol now netP netA rand s hrl
    cases hc : s.tickerCache (tickerKey symbol) with
    | none => rw [fetchTicker, hc, hb] at h; simp at h
    | some c =>
      by_cases hfresh : now - c.timestamp < 2000
      · rw [fetchTicker, hc] at h; simp [hfresh] at h
      · rw [fetchTicker, hc] at h; simp [hfresh, hb] at h
  · have ha := fetchTickerNetwork_attempted symbol now netP netA rand s hrl
    cases hc : s.tickerCache (tickerKey symbol) with
    | none => rw [fetchTicker, hc]; exact ha.2
    | some c =>
      by_cases hfresh : now - c.timestamp < 2000
      · rw [fetchTicker, hc] at h; simp [hfresh] at h
      · rw [fetchTicker, hc]; simp [hfresh]; exact ha.2

/-- A `fetchTicker` call issued less than 1000 ms after the recorded
`lastFetch` performs no network attempt and returns the cache entry when
one exists, else mock data. -/
theorem fetchTicker_blocked (symbol : String) (now tL : ℕ)
    (netP netA : String → Option RawTicker) (rand : ℕ → ℚ) (s : MDState)
    (hlf : s.lastFetch symbol = some tL) (h : now - tL < 1000) :
    (fetchTicker symbol now netP netA rand s).2.1 = false ∧
    ((∃ c, s.tickerCache (tickerKey symbol) = some c ∧
        (fetchTicker symbol now netP netA rand s).1 = c) ∨
     (s.tickerCache (tickerKey symbol) = none ∧
        (fetchTicker symbol now netP netA rand s).1 = getMockTicker symbol now rand)) := by
  have hgd : now - (s.lastFetch symbol).getD 0 < 1000 := by rw [hlf]; simpa using h
  have hb := fetchTickerNetwork_blocked symbol now netP netA rand s hgd
  cases hc : s.tickerCache (tickerKey symbol) with
  | none => rw [fetchTicker, hc, hb]; simp [hc]
  | some c =>
    by_cases hfresh : now - c.timestamp < 2000
    · rw [fetchTicker, hc]; simp [hfresh]
    · rw [fetchTicker, hc]; simp [hfresh, hb, hc]

/-! ## Claim theorems -/

/-- Claim C1 (code bug evaluated at the failing input).  After a single
client subscribes to a symbol and then disconnects, the symbol's room is
empty, yet both the 2000 ms price-update poll and the 30000 ms alert
interval are still running: the disconnect handler runs no unsubscription
logic, and even an explicit `unsubscribe-symbol` (second scenario) clears
only the stored alert interval while the price poll, whose cancellation
handle was discarded, keeps firing. -/
theorem ws_disconnect_leaves_timers_running :
    (roomCount "S" (wsRun [WSEvent.subscribe 1 "S", WSEvent.disconnect 1]) = 0 ∧
     priceTimerActive "S" (wsRun [WSEvent.subscribe 1 "S", WSEvent.disconnect 1]) = true ∧
     alertTimerActive "S" (wsRun [WSEvent.subscribe 1 "S", WSEvent.disconnect 1]) = true) ∧
    (roomCount "S" (wsRun [WSEvent.subscribe 1 "S", WSEvent.unsubscribe 1 "S"]) = 0 ∧
     priceTimerActive "S" (wsRun [WSEvent.subscribe 1 "S", WSEvent.unsubscribe 1 "S"]) = true ∧
     alertTimerActive "S" (wsRun [WSEvent.subscribe 1 "S", WSEvent.unsubscribe 1 "S"]) = false) := by
  decide

/-- Claim C2 (code bug evaluated at the failing input).  With every network
attempt failing, `fetchTicker` substitutes mock data (base price 65000)
without throwing, so `getMarketData` — and the `GET /api/market/:symbol`
route — deliver that mock snapshot marked `isRealData = true` with
status 200; the `isRealData = false` / 206 degraded path is never taken. -/
theorem getMarketData_marks_mock_as_real :
    (fetchTicker "PERP_BTC_USDC" 5000 noNetTicker noNetTicker randZero MDState.initial).1 =
      getMockTicker "PERP_BTC_USDC" 5000 randZero ∧
    (fetchTicker "PERP_BTC_USDC" 5000 noNetTicker noNetTicker randZero MDState.initial).2.1 = true ∧
    (getMarketData "PERP_BTC_USDC" 5000 noNetTicker noNetTicker noNetOrderbook noNetOrderbook
      randZero randZero MDState.initial).1.isRealData = true ∧
    (getMarketData "PERP_BTC_USDC" 5000 noNetTicker noNetTicker noNetOrderbook noNetOrderbook
      randZero randZero MDState.initial).1.price = 65000 ∧
    (getMockTicker "PERP_BTC_USDC" 5000 randZero).price = 65000 ∧
    (marketRouteGet "PERP_BTC_USDC" 5000 noNetTicker noNetTicker noNetOrderbook noNetOrderbook
      randZero randZero MDState.initial).1 = 200 ∧
    (marketRouteGet "PERP_BTC_USDC" 5000 noNetTicker noNetTicker noNetOrderbook noNetOrderbook
      randZero randZero MDState.initial).2.1.isRealData = true := by
  norm_num [getMarketData, marketRouteGet, fetchTicker, fetchTickerNetwork, fetchOrderbook,
    fetchOrderbookNetwork, checkRateLimit, firstSuccess, tickerEndpoints, tickerAuthEndpoints,
    getMockTicker, getMockOrderbook, getBasePrice, MDState.initial, noNetTicker, noNetOrderbook,
    randZero, tickerKey, orderbookKey]

/-- Claim C3 (counterexample).  A constant price sequence of length 15
drives both smoothed averages to zero, so `rs = 0/0 = NaN` and the clamp
propagates it: the result is `NaN`, not a value in `[0, 100]`. -/
theorem calculateRSI_constant_not_in_range :
    (List.replicate 15 (100:ℚ)).length = 15 ∧
    calculateRSI (List.replicate 15 (100:ℚ)) 14 = JsNum.nan ∧
    (calculateRSI (List.replicate 15 (100:ℚ)) 14).between 0 100 = false := by
  norm_num [calculateRSI, avgSmoothed, wilderSmooth, rsiGains, rsiLosses, rsiChanges,
    JsNum.div, JsNum.add, JsNum.sub, JsNum.neg, JsNum.jsMin, JsNum.jsMax, JsNum.between,
    List.replicate]

/-- Claim C3 (amended).  With fewer than 15 samples `calculateRSI` returns
the neutral 50; with at least 15 samples and at least one non-zero
consecutive change the result is a finite value in `[0, 100]` (constant
sequences, excluded by the amendment, yield `NaN`). -/
theorem calculateRSI_range_amended (prices : List ℚ) :
    (prices.length < 15 → calculateRSI prices 14 = JsNum.num 50) ∧
    (15 ≤ prices.length → (∃ c ∈ rsiChanges prices, c ≠ 0) →
      (calculateRSI prices 14).between 0 100 = true) := by
  constructor
  · intro h
    simp [calculateRSI, h]
  · intro hlen hch
    have hnl : ¬ prices.length < 14 + 1 := by omega
    have hgain_nn : ∀ x ∈ rsiGains prices, 0 ≤ x := by
      intro x hx
      rcases List.mem_map.mp hx with ⟨c, _, rfl⟩
      split_ifs with h
      · exact h.le
      · exact le_refl 0
    have hloss_nn : ∀ x ∈ rsiLosses prices, 0 ≤ x := by
      intro x hx
      rcases List.mem_map.mp hx with ⟨c, _, rfl⟩
      split_ifs with h
      · exact abs_nonneg c
      · exact le_refl 0
    have key : 0 < avgSmoothed 14 (rsiGains prices) ∨ 0 < avgSmoothed 14 (rsiLosses prices) := by
      rcases hch with ⟨c, hc, hcne⟩
      rcases lt_or_gt_of_ne hcne with hneg | hpos
      · right
        refine avgSmoothed_pos 14 (by norm_num) _ hloss_nn ⟨|c|, ?_, abs_pos.mpr hcne⟩
        exact List.mem_map.mpr ⟨c, hc, by simp [hneg]⟩
      · left
        refine avgSmoothed_pos 14 (by norm_num) _ hgain_nn ⟨c, ?_, hpos⟩
        exact List.mem_map.mpr ⟨c, hc, by simp [hpos]⟩
    have hgn : 0 ≤ avgSmoothed 14 (rsiGains prices) :=
      avgSmoothed_nonneg 14 (by norm_num) _ hgain_nn
    have hln : 0 ≤ avgSmoothed 14 (rsiLosses prices) :=
      avgSmoothed_nonneg 14 (by norm_num) _ hloss_nn
    unfold calculateRSI
    rw [if_neg hnl]
    set g := avgSmoothed 14 (rsiGains prices) with hg
    set l := avgSmoothed 14 (rsiLosses prices) with hl
    rcases eq_or_lt_of_le hln with hl0 | hlpos
    · have hgpos : 0 < g := by
        rcases key with h | h
        · exact h
        · exact absurd h (by rw [← hl0]; exact lt_irrefl 0)
      simp only [JsNum.div, ← hl0, if_pos rfl, if_neg hgpos.ne', if_pos hgpos,
        JsNum.add, JsNum.sub, JsNum.neg]
      simp [JsNum.jsMin, JsNum.jsMax, JsNum.between]
    · have h1q : ¬ ((1:ℚ) + g / l = 0) := by
        have : (0:ℚ) ≤ g / l := div_nonneg hgn hlpos.le
        intro hcon
        linarith
      simp only [JsNum.div, if_neg hlpos.ne', JsNum.add, if_neg h1q, JsNum.sub, JsNum.neg]
      exact clamp_between _

/-- Claim C3 (witness).  A 15-sample sequence with one upward change lies
in the amendment's scope and indeed produces an RSI inside `[0, 100]`. -/
theorem calculateRSI_range_amended_witness :
    (calculateRSI [(100:ℚ), 101, 101, 101, 101, 101, 101, 101, 101, 101, 101, 101, 101, 101, 101]
      14).between 0 100 = true :=
  (calculateRSI_range_amended
    [(100:ℚ), 101, 101, 101, 101, 101, 101, 101, 101, 101, 101, 101, 101, 101, 101]).2
    (by norm_num) ⟨1, by norm_num [rsiChanges], one_ne_zero⟩

/-- Claim C4.  For every price sequence, `calculateMACD` returns
`macd = EMA12 − EMA26`, a signal equal to `calculateEMA [macd] 9`, which
degenerates to the MACD value itself, and `histogram = macd − signal = 0`. -/
theorem calculateMACD_signal_degenerate (prices : List ℚ) :
    (calculateMACD prices).macd = calculateEMA prices 12 - calculateEMA prices 26 ∧
    (calculateMACD prices).signal = calculateEMA [(calculateMACD prices).macd] 9 ∧
    (calculateMACD prices).signal = (calculateMACD prices).macd ∧
    (calculateMACD prices).histogram = (calculateMACD prices).macd - (calculateMACD prices).signal ∧
    (calculateMACD prices).histogram = 0 := by
  have h : ∀ m : ℚ, calculateEMA [m] 9 = m := by
    intro m
    by_cases hm : m = 0 <;> simp [calculateEMA, lastOrZero, hm]
  refine ⟨rfl, rfl, ?_, rfl, ?_⟩ <;> simp [calculateMACD, h]

/-- Claim C5 (counterexample).  A `fetchKlines` call finds a cache entry
written 1500 ms earlier — younger than the 2000 ms TTL — and still
performs a network attempt, because `fetchKlines` (unlike `fetchTicker`)
has no freshness check before the rate limiter. -/
theorem fetchKlines_fresh_cache_still_fetches :
    sAfterFirstKlines.klinesCache (klinesKey "S" "1m" 100) = some [klineSample] ∧
    (2500 - 1000 < 2000) ∧
    (fetchKlines "S" "1m" 100 2500 klNet klNet randZero sAfterFirstKlines).2.1 = true := by
  refine ⟨?_, by norm_num, ?_⟩ <;>
    norm_num [sAfterFirstKlines, fetchKlines, checkRateLimit, klNet, MDState.initial, klinesKey]

/-- Claim C5 (amended).  A cache entry younger than the 2000 ms TTL
short-circuits network access for `fetchTicker` and `fetchOrderbook`;
`fetchKlines` and `fetchTrades` have no TTL check and consult their cache
entry — whatever its age — only on the rate-limited path. -/
theorem fetch_cache_ttl_amended (symbol interval : String) (limit now : ℕ)
    (netPT netAT : String → Option RawTicker) (netPO netAO : String → Option RawOrderbook)
    (netPK netAK : String → Option (List KlineData)) (netPTr netATr : String → Option (List RawTrade))
    (rand : ℕ → ℚ) (s : MDState) :
    (∀ c, s.tickerCache (tickerKey symbol) = some c → now - c.timestamp < 2000 →
      fetchTicker symbol now netPT netAT rand s = (c, false, s)) ∧
    (∀ ob, s.orderbookCache (orderbookKey symbol) = some ob → now - ob.timestamp < 2000 →
      fetchOrderbook symbol now netPO netAO rand s = (ob, false, s)) ∧
    (now - (s.lastFetch symbol).getD 0 < 1000 →
      fetchKlines symbol interval limit now netPK netAK rand s =
        ((s.klinesCache (klinesKey symbol interval limit)).getD
          (getMockKlines symbol limit now rand), false, s) ∧
      fetchTrades symbol limit now netPTr netATr rand s =
        ((s.tradesCache (tradesKey symbol limit)).getD
          (getMockTrades symbol limit now rand), false, s)) := by
  refine ⟨fun c hc hfresh => ?_, fun ob hob hfresh => ?_, fun hrl => ⟨?_, ?_⟩⟩
  · simp [fetchTicker, hc, hfresh]
  · simp [fetchOrderbook, hob, hfresh]
  · simp [fetchKlines, checkRateLimit, hrl]
  · simp [fetchTrades, checkRateLimit, hrl]

/-- Claim C5 (witness).  In a state with fresh ticker and orderbook cache
entries (age 1000 ms) and a 500 ms-old rate-limit stamp, ticker and
orderbook return their entries with no attempt, and klines/trades return
cached-or-mock data with no attempt. -/
theorem fetch_cache_ttl_amended_witness :
    fetchTicker "S" 5000 noNetTicker noNetTicker randZero sW = (tickerW, false, sW) ∧
    fetchOrderbook "S" 5000 noNetOrderbook noNetOrderbook randZero sW = (orderbookW, false, sW) ∧
    fetchKlines "S" "1m" 100 5000 klNet klNet randZero sW = ([klineSample], false, sW) ∧
    fetchTrades "S" 100 5000 (fun _ => none) (fun _ => none) randZero sW =
      (getMockTrades "S" 100 5000 randZero, false, sW) := by
  have h := fetch_cache_ttl_amended "S" "1m" 100 5000 noNetTicker noNetTicker
    noNetOrderbook noNetOrderbook klNet klNet (fun _ => none) (fun _ => none) randZero sW
  refine ⟨h.1 tickerW (by norm_num [sW]) (by norm_num [tickerW]),
          h.2.1 orderbookW (by norm_num [sW]) (by norm_num [orderbookW]),
          ?_, ?_⟩
  · have hkl := (h.2.2 (by norm_num [sW])).1
    simpa [sW] using hkl
  · have htr := (h.2.2 (by norm_num [sW])).2
    simpa [sW] using htr

/-- Claim C6 (counterexample).  Two `fetchTicker` calls 200 ms apart: the
first hits a still-fresh cache entry (no attempt), the second finds the
entry stale and the rate limiter clear, performs a network attempt, and
returns fresh upstream data (price 999) — neither the cached value
(price 500) nor mock data (price 65000). -/
theorem fetchTicker_rate_limit_claim_counterexample :
    (7100 - 6900 < 1000) ∧
    call1C6.2.1 = false ∧
    call2C6.2.1 = true ∧
    call1C6.2.2.tickerCache (tickerKey "PERP_BTC_USDC") =
      some ⟨"PERP_BTC_USDC", 500, 500, 1, 501, 499, 0, 0, 5000⟩ ∧
    call2C6.1.price = 999 ∧
    (getMockTicker "PERP_BTC_USDC" 7100 randZero).price = 65000 ∧
    call2C6.1 ≠ (⟨"PERP_BTC_USDC", 500, 500, 1, 501, 499, 0, 0, 5000⟩ : TickerData) ∧
    call2C6.1 ≠ getMockTicker "PERP_BTC_USDC" 7100 randZero := by
  norm_num [call1C6, call2C6, sSeedC6, fetchTicker, fetchTickerNetwork, checkRateLimit,
    firstSuccess, tickerEndpoints, tickerAuthEndpoints, tickNet500, tickNet999, randZero,
    getMockTicker, getBasePrice, MDState.initial, tickerKey]

/-- Claim C6 (amended).  Two `fetchTicker` calls for one symbol issued
less than 1000 ms apart never both perform a network attempt; moreover,
when the earlier call did perform an attempt, the later call performs none
and returns the cache entry for the symbol when one exists, else mock
data.  (When the earlier call was itself answered from the fresh cache,
the later call may legitimately attempt the network.) -/
theorem fetchTicker_rate_limit_amended (symbol : String) (t1 t2 : ℕ)
    (netP1 netA1 netP2 netA2 : String → Option RawTicker) (r1 r2 : ℕ → ℚ)
    (s : MDState) (_h12 : t1 ≤ t2) (hlt : t2 - t1 < 1000) :
    ¬((fetchTicker symbol t1 netP1 netA1 r1 s).2.1 = true ∧
      (fetchTicker symbol t2 netP2 netA2 r2
        (fetchTicker symbol t1 netP1 netA1 r1 s).2.2).2.1 = true) ∧
    ((fetchTicker symbol t1 netP1 netA1 r1 s).2.1 = true →
      (fetchTicker symbol t2 netP2 netA2 r2
        (fetchTicker symbol t1 netP1 netA1 r1 s).2.2).2.1 = false ∧
      ((∃ c, (fetchTicker symbol t1 netP1 netA1 r1 s).2.2.tickerCache (tickerKey symbol) = some c ∧
          (fetchTicker symbol t2 netP2 netA2 r2 (fetchTicker symbol t1 netP1 netA1 r1 s).2.2).1 = c) ∨
       ((fetchTicker symbol t1 netP1 netA1 r1 s).2.2.tickerCache (tickerKey symbol) = none ∧
          (fetchTicker symbol t2 netP2 netA2 r2 (fetchTicker symbol t1 netP1 netA1 r1 s).2.2).1 =
            getMockTicker symbol t2 r2))) := by
  have key : (fetchTicker symbol t1 netP1 netA1 r1 s).2.1 = true →
      (fetchTicker symbol t2 netP2 netA2 r2 (fetchTicker symbol t1 netP1 netA1 r1 s).2.2).2.1 = false ∧
      ((∃ c, (fetchTicker symbol t1 netP1 netA1 r1 s).2.2.tickerCache (tickerKey symbol) = some c ∧
          (fetchTicker symbol t2 netP2 netA2 r2 (fetchTicker symbol t1 netP1 netA1 r1 s).2.2).1 = c) ∨
       ((fetchTicker symbol t1 netP1 netA1 r1 s).2.2.tickerCache (tickerKey symbol) = none ∧
          (fetchTicker symbol t2 netP2 netA2 r2 (fetchTicker symbol t1 netP1 netA1 r1 s).2.2).1 =
            getMockTicker symbol t2 r2)) := by
    intro h1
    have hlf := fetchTicker_attempted_lastFetch symbol t1 netP1 netA1 r1 s h1
    exact fetchTicker_blocked symbol t2 t1 netP2 netA2 r2 _ hlf hlt
  refine ⟨fun hcontra => ?_, key⟩
  have hfalse := (key hcontra.1).1
  rw [hfalse] at hcontra
  exact absurd hcontra.2 (by simp)

/-- Claim C6 (witness).  Two concrete calls 500 ms apart, the first of
which performs a (successful) network attempt: the two attempts cannot
both happen. -/
theorem fetchTicker_rate_limit_amended_witness :
    ¬((fetchTicker "PERP_BTC_USDC" 5000 tickNet500 tickNet500 randZero MDState.initial).2.1 = true ∧
      (fetchTicker "PERP_BTC_USDC" 5500 tickNet999 tickNet999 randZero
        (fetchTicker "PERP_BTC_USDC" 5000 tickNet500 tickNet500 randZero
          MDState.initial).2.2).2.1 = true) :=
  (fetchTicker_rate_limit_amended "PERP_BTC_USDC" 5000 5500 tickNet500 tickNet500
    tickNet999 tickNet999 randZero randZero MDState.initial (by norm_num) (by norm_num)).1

/-- Claim C7 (counterexample).  Ten bars give nine true-range samples —
fewer than the period 14 — with last true range 5, yet `calculateATR`
returns 0, not the last true range: the first guard returns 0 whenever
`highs.length < period`. -/
theorem calculateATR_short_series_counterexample :
    ([(10:ℚ), 10, 10, 10, 10, 10, 10, 10, 10, 10].length < 14) ∧
    (trueRanges [(10:ℚ), 10, 10, 10, 10, 10, 10, 10, 10, 10]
      [5, 5, 5, 5, 5, 5, 5, 5, 5, 5] [7, 7, 7, 7, 7, 7, 7, 7, 7, 7]).length = 9 ∧
    lastOrZero (trueRanges [(10:ℚ), 10, 10, 10, 10, 10, 10, 10, 10, 10]
      [5, 5, 5, 5, 5, 5, 5, 5, 5, 5] [7, 7, 7, 7, 7, 7, 7, 7, 7, 7]) = 5 ∧
    calculateATR [(10:ℚ), 10, 10, 10, 10, 10, 10, 10, 10, 10]
      [5, 5, 5, 5, 5, 5, 5, 5, 5, 5] [7, 7, 7, 7, 7, 7, 7, 7, 7, 7] 14 = 0 := by
  refine ⟨by norm_num, ?_, ?_, ?_⟩ <;> norm_num [trueRanges, lastOrZero, calculateATR]

/-- Claim C7 (amended).  For aligned series: `calculateATR` returns 0
whenever `highs.length < period` (even when non-zero true ranges exist);
the last-true-range fallback applies only in the single remaining
fewer-than-period-true-ranges case `highs.length = period`; with at least
`period` true-range samples (`highs.length ≥ period + 1`) it returns the
SMA(period) of the true-range series. -/
theorem calculateATR_amended (highs lows closes : List ℚ) (period : ℕ)
    (hp : 1 ≤ period) (hl : lows.length = highs.length) (hc : closes.length = highs.length) :
    (highs.length < period → calculateATR highs lows closes period = 0) ∧
    (highs.length = period →
      calculateATR highs lows closes period = lastOrZero (trueRanges highs lows closes)) ∧
    (period + 1 ≤ highs.length →
      calculateATR highs lows closes period = calculateSMA (trueRanges highs lows closes) period) := by
  have htr := trueRanges_length highs lows closes hl hc
  refine ⟨fun h => ?_, fun h => ?_, fun h => ?_⟩
  · simp [calculateATR, h]
  · have h1 : ¬ highs.length < period := by omega
    have h2 : (trueRanges highs lows closes).length < period := by omega
    simp [calculateATR, h1, h2]
  · have h1 : ¬ highs.length < period := by omega
    have h2 : ¬ (trueRanges highs lows closes).length < period := by omega
    simp [calculateATR, h1, h2]

/-- Claim C7 (witness).  Fifteen aligned bars (14 true-range samples) land
in the SMA branch of the amended characterization. -/
theorem calculateATR_amended_witness :
    calculateATR (List.replicate 15 (10:ℚ)) (List.replicate 15 (5:ℚ))
      (List.replicate 15 (7:ℚ)) 14 =
    calculateSMA (trueRanges (List.replicate 15 (10:ℚ)) (List.replicate 15 (5:ℚ))
      (List.replicate 15 (7:ℚ))) 14 :=
  (calculateATR_amended (List.replicate 15 (10:ℚ)) (List.replicate 15 (5:ℚ))
    (List.replicate 15 (7:ℚ)) 14 (by norm_num) (by simp) (by simp)).2.2 (by simp)

/-- Claim C8 (counterexample).  With the current price equal to `sma20`
and `sma20` equal to `sma50`, `trendDirection` returns `bearish`, not the
`neutral` the claim requires for ties: both `? 1 : -1` selectors fall to
the `-1` arm on equality. -/
theorem trendDirection_ties_counterexample :
    trendDirection [(1:ℚ), 5] 5 5 = Trend.bearish ∧ Trend.bearish ≠ Trend.neutral := by
  decide

/-- Claim C8 (amended).  For at least two prices: bullish exactly when
`price > sma20` and `sma20 > sma50` (both strict); bearish exactly when
`price ≤ sma20` and `sma20 ≤ sma50` (ties fall to bearish, not neutral);
neutral exactly when the two comparisons disagree. -/
theorem trendDirection_amended (prices : List ℚ) (sma20 sma50 : ℚ)
    (h2 : 2 ≤ prices.length) :
    (trendDirection prices sma20 sma50 = Trend.bullish ↔
      sma20 < (prices.getLast?).getD 0 ∧ sma50 < sma20) ∧
    (trendDirection prices sma20 sma50 = Trend.bearish ↔
      (prices.getLast?).getD 0 ≤ sma20 ∧ sma20 ≤ sma50) ∧
    (trendDirection prices sma20 sma50 = Trend.neutral ↔
      ¬(sma20 < (prices.getLast?).getD 0 ∧ sma50 < sma20) ∧
      ¬((prices.getLast?).getD 0 ≤ sma20 ∧ sma20 ≤ sma50)) := by
  have hn : ¬ prices.length < 2 := by omega
  by_cases h1 : (prices.getLast?).getD 0 > sma20 <;>
    by_cases hl : sma20 > sma50 <;>
      simp [trendDirection, hn, h1, hl, not_lt, le_of_not_lt]

/-- Claim C8 (witness).  With last price 5, `sma20 = 2` and `sma50 = 1`
the amended characterization yields `bullish`. -/
theorem trendDirection_amended_witness :
    trendDirection [(1:ℚ), 5] 2 1 = Trend.bullish :=
  ((trendDirection_amended [(1:ℚ), 5] 2 1 (by norm_num)).1).mpr (by norm_num)

/-- Claim C9.  If any awaited step of `ChatService.processMessage` fails —
the market-data fetch, the indicator computation or the completion call —
the catch arm returns the fixed apology payload naming the symbol, with
placeholder indicators `rsi = 50`, all-zero MACD, zero EMAs and zero
price, and no exception escapes. -/
theorem processMessage_failure_fallback (message wallet symbol : String)
    (marketRes : Except Unit MarketSnapshot) (indicRes : Except Unit IndicatorSnapshot)
    (completionRes : Except Unit (Option String))
    (hfail : marketRes = Except.error () ∨ indicRes = Except.error () ∨
      completionRes = Except.error ()) :
    processMessage message wallet symbol marketRes indicRes completionRes =
      chatFallbackResponse symbol ∧
    (processMessage message wallet symbol marketRes indicRes completionRes).reply =
      apologyHead ++ symbol ++ apologySuffix ∧
    (processMessage message wallet symbol marketRes indicRes completionRes).indicators =
      ⟨50, ⟨0, 0, 0⟩, 0, 0⟩ ∧
    (processMessage message wallet symbol marketRes indicRes completionRes).price = 0 := by
  cases marketRes <;> cases indicRes <;> cases completionRes <;>
    simp_all [processMessage, chatFallbackResponse]

/-- Claim C9 (witness).  A concrete request whose market-data step fails
receives exactly the apology payload for its symbol. -/
theorem processMessage_failure_fallback_witness :
    processMessage "analyze market" "0xabc" "PERP_HYPE_USDC"
      (Except.error ()) (Except.ok ⟨50, ⟨0, 0, 0⟩, 0, 0, 0, 0, 0, Trend.neutral⟩)
      (Except.ok (some "hello")) = chatFallbackResponse "PERP_HYPE_USDC" ∧
    (processMessage "analyze market" "0xabc" "PERP_HYPE_USDC"
      (Except.error ()) (Except.ok ⟨50, ⟨0, 0, 0⟩, 0, 0, 0, 0, 0, Trend.neutral⟩)
      (Except.ok (some "hello"))).reply =
      apologyHead ++ "PERP_HYPE_USDC" ++ apologySuffix ∧
    (processMessage "analyze market" "0xabc" "PERP_HYPE_USDC"
      (Except.error ()) (Except.ok ⟨50, ⟨0, 0, 0⟩, 0, 0, 0, 0, 0, Trend.neutral⟩)
      (Except.ok (some "hello"))).indicators = ⟨50, ⟨0, 0, 0⟩, 0, 0⟩ ∧
    (processMessage "analyze market" "0xabc" "PERP_HYPE_USDC"
      (Except.error ()) (Except.ok ⟨50, ⟨0, 0, 0⟩, 0, 0, 0, 0, 0, Trend.neutral⟩)
      (Except.ok (some "hello"))).price = 0 :=
  processMessage_failure_fallback _ _ _ _ _ _ (Or.inl rfl)

/-- Claim C10.  `POST /api/ai/chat` returns 400 with only the error field
— and never invokes `processMessage` — whenever `message`, `wallet` or
`symbol` is absent or the empty string (the JavaScript falsy check). -/
theorem postChat_missing_or_empty_400 (body : ChatRequestBody)
    (marketRes : Except Unit MarketSnapshot) (indicRes : Except Unit IndicatorSnapshot)
    (completionRes : Except Unit (Option String))
    (hfalsy : strFalsy body.message = true ∨ strFalsy body.wallet = true ∨
      strFalsy body.symbol = true) :
    postChat body marketRes indicRes completionRes =
      (400, ChatRouteBody.errorOnly "Missing required fields: message, wallet, symbol", false) := by
  rcases hfalsy with h | h | h <;> simp [postChat, h]

/-- Claim C10 (witness).  A present-but-empty `symbol` field triggers the
400 short-circuit with no chat processing. -/
theorem postChat_missing_or_empty_400_witness :
    postChat ⟨some "analyze", some "0xabc", some ""⟩
      (Except.error ()) (Except.error ()) (Except.error ()) =
      (400, ChatRouteBody.errorOnly "Missing required fields: message, wallet, symbol", false) :=
  postChat_missing_or_empty_400 _ _ _ _ (Or.inr (Or.inr rfl))
